import Mathlib

/-! Verification of the ATS scan pipeline of `src/agents/ats_agent/routes.py`
(endpoint `run_ajax`) and of the collaborator contracts it drives.

The orchestrator (`run_ajax`) is embedded from the source.  The collaborator
modules `filters.py`, `scorer.py`, `scanner.py`, `parser.py` and the model
classes `ATSAgentConfig` / `CVCandidate` / `ATSScanHistory` are imported by
`routes.py` but are not part of the sources at hand; those parts are modelled
from the specification and are marked `Modelled from the spec:` below.
Wall-clock timestamps are modelled only as presence markers (`Option Unit`). -/

set_option linter.unusedVariables false

/-- Truthiness test for an optional string, matching Python: `None` and the
empty string are falsy. -/
def truthy : Option String → Bool
  | none => false
  | some s => !(s == "")

/-! ## Hard Filter Engine (spec section 4.3) -/

/-- Modelled from the spec: the constraint set taken by the Hard Filter Engine
(`apply_hard_filters` of `src/agents/ats_agent/filters.py`, not among the
sources at hand): location allow-list, inclusive experience bounds, and the
must-have skill list.  Absent bounds mean the constraint is not imposed. -/
structure FilterConfig where
  allowed_locations : List String := []
  min_experience : Option Nat := none
  max_experience : Option Nat := none
  must_have_skills : List String := []
  deriving Repr, DecidableEq

/-- Case-insensitive-ready containment of a character pattern within a
character list (plain substring search). -/
def containsChars (pat : List Char) : List Char → Bool
  | [] => pat.isEmpty
  | c :: cs => pat.isPrefixOf (c :: cs) || containsChars pat cs

/-- Lowercases a character list. -/
def lowerChars (l : List Char) : List Char :=
  l.map Char.toLower

/-- Case-insensitive substring test between strings. -/
def containsCI (text pat : String) : Bool :=
  containsChars (lowerChars pat.toList) (lowerChars text.toList)

/-- Accumulates a leading run of decimal digits, returning the value and the
rest of the characters. -/
def grabDigits : List Char → Nat → Nat × List Char
  | [], acc => (acc, [])
  | c :: cs, acc =>
    if c.isDigit then grabDigits cs (acc * 10 + (c.toNat - 48)) else (acc, c :: cs)

/-- Scans lowercased characters for the first number immediately followed
(after optional spaces) by the word "year"; used to read a years-of-experience
figure out of free resume text. -/
def yearsScan : List Char → Option Nat
  | [] => none
  | c :: cs =>
    if c.isDigit then
      let p := grabDigits (c :: cs) 0
      if ("year".toList).isPrefixOf (p.2.dropWhile (· = ' ')) then some p.1
      else yearsScan cs
    else yearsScan cs

/-- Modelled from the spec: best-effort extraction of the years-of-experience
figure from resume text, as the Hard Filter Engine needs it to enforce the
experience bounds of section 4.3 (scenario A reads "5 years" and "1 year"
from the text). -/
def extractYears (s : String) : Option Nat :=
  yearsScan (lowerChars s.toList)

/-- Modelled from the spec: `apply_hard_filters` of
`src/agents/ats_agent/filters.py` (not among the sources at hand), per spec
section 4.3: pure and deterministic; constraints are ANDed; the location
allow-list is unrestricted when empty and uses case-insensitive substring
matching; experience bounds are inclusive; every must-have skill must appear
(case-insensitive substring); all failed reasons are returned, not only the
first; the empty constraint set always passes.  Split into one
reason-list builder per constraint; `apply_hard_filters` below ANDs them.
This definition builds the failure reasons of the location constraint. -/
def locationReasons (cv_text : String) (cfg : FilterConfig) : List String :=
  if cfg.allowed_locations.isEmpty then []
  else if cfg.allowed_locations.any (fun loc => containsCI cv_text loc) then []
  else ["Location not in allowed list"]

/-- Failure reasons of the experience-bounds constraint (empty when it
holds or is not imposed or no years figure is found). -/
def experienceReasons (cv_text : String) (cfg : FilterConfig) : List String :=
  match extractYears cv_text with
  | none => []
  | some y =>
    (match cfg.min_experience with
     | some m => if y < m then ["Experience below minimum"] else []
     | none => []) ++
    (match cfg.max_experience with
     | some m => if m < y then ["Experience above maximum"] else []
     | none => [])

/-- Failure reasons of the must-have-skill constraint, one per missing
skill. -/
def skillReasons (cv_text : String) (cfg : FilterConfig) : List String :=
  cfg.must_have_skills.filterMap (fun sk =>
    if containsCI cv_text sk then none
    else some ("Missing must-have skill: " ++ sk))

def apply_hard_filters (cv_text : String) (cfg : FilterConfig) : Bool × List String :=
  let reasons := locationReasons cv_text cfg ++ experienceReasons cv_text cfg ++
    skillReasons cv_text cfg
  (reasons.isEmpty, reasons)

/-- Location sub-check of the hard filter, in isolation. -/
def locationPasses (cv_text : String) (cfg : FilterConfig) : Bool :=
  cfg.allowed_locations.isEmpty ||
    cfg.allowed_locations.any (fun loc => containsCI cv_text loc)

/-- Experience-bounds sub-check of the hard filter, in isolation. -/
def experiencePasses (cv_text : String) (cfg : FilterConfig) : Bool :=
  match extractYears cv_text with
  | none => true
  | some y =>
    (match cfg.min_experience with
     | some m => decide (m ≤ y)
     | none => true) &&
    (match cfg.max_experience with
     | some m => decide (y ≤ m)
     | none => true)

/-- Must-have-skill sub-check of the hard filter, in isolation. -/
def skillsPass (cv_text : String) (cfg : FilterConfig) : Bool :=
  cfg.must_have_skills.all (fun sk => containsCI cv_text sk)

/-! ## Weighted Aggregator (spec section 4.5) -/

/-- Modelled from the spec: the validated structured result returned by the
Scoring Adapter (`score_cv_with_openai` of `src/agents/ats_agent/scorer.py`,
not among the sources at hand): five axis scores with reasoning, an overall
assessment, red flags, and extracted facts (spec sections 4.4 and 6). -/
structure ScoreResult where
  skills_score : ℚ
  skills_reasoning : String := ""
  title_score : ℚ
  title_reasoning : String := ""
  experience_score : ℚ
  experience_reasoning : String := ""
  education_score : ℚ
  education_reasoning : String := ""
  keywords_score : ℚ
  keywords_reasoning : String := ""
  overall_assessment : String := ""
  red_flags : List String := []
  years_of_experience : Option ℚ := none
  location : Option String := none
  current_title : Option String := none
  extracted_skills : List String := []
  deriving Repr, DecidableEq

/-- Five scoring weights, one per axis, as passed by `run_ajax`
(routes.py lines 290-296). -/
structure Weights where
  weight_skills : ℚ
  weight_title : ℚ
  weight_experience : ℚ
  weight_education : ℚ
  weight_keywords : ℚ
  deriving Repr, DecidableEq

/-- Sum of the five weights. -/
def weightSum (w : Weights) : ℚ :=
  w.weight_skills + w.weight_title + w.weight_experience +
    w.weight_education + w.weight_keywords

/-- Weighted sum of the five axis scores. -/
def weightedAxisSum (s : ScoreResult) (w : Weights) : ℚ :=
  s.skills_score * w.weight_skills + s.title_score * w.weight_title +
    s.experience_score * w.weight_experience +
    s.education_score * w.weight_education +
    s.keywords_score * w.weight_keywords

/-- Modelled from the spec: `calculate_weighted_score` of
`src/agents/ats_agent/scorer.py` (not among the sources at hand), per spec
section 4.5: the weighted mean of the five axis scores, defined as `0` when
the weight sum is `0`. -/
def calculate_weighted_score (s : ScoreResult) (w : Weights) : ℚ :=
  if weightSum w = 0 then 0 else weightedAxisSum s w / weightSum w

/-- Axis scores of the aggregator test vector of spec section 8. -/
def aggExampleScore : ScoreResult :=
  { skills_score := 80, title_score := 60, experience_score := 100,
    education_score := 40, keywords_score := 20 }

/-- Weights of the aggregator test vector of spec section 8. -/
def aggExampleWeights : Weights :=
  { weight_skills := 0.4, weight_title := 0.2, weight_experience := 0.2,
    weight_education := 0.1, weight_keywords := 0.1 }

/-! ## Data model (spec section 3, routes.py usage)

The model classes `ATSAgentConfig`, `CVCandidate`, `ATSScanHistory` and the
ATS part of `UserSettings` are referenced by `routes.py` but their
declarations are not among the sources at hand; the records below are
modelled from the spec (section 3) and from the exact field usage visible in
`routes.py`. -/

/-- Lifecycle status of a candidate row (spec: `status ∈ {new, filtered_out,
scored}`). -/
inductive CandStatus
  | new
  | filtered_out
  | scored
  deriving Repr, DecidableEq

/-- Status of one scan run (spec: `status ∈ {running, completed, failed}`). -/
inductive RunStatus
  | running
  | completed
  | failed
  deriving Repr, DecidableEq

/-- Modelled from the spec: the persistent `CVCandidate` row, with the fields
assigned by `run_ajax` (routes.py lines 234-306).  The status column default
is `new` per spec section 3; `processed_at` is a presence marker. -/
structure CVCandidate where
  user_id : Nat
  cv_text : String
  cv_file_path : String := ""
  cv_source : String := ""
  source_file_id : String
  source_file_name : String := ""
  full_name : Option String := none
  email : Option String := none
  phone : Option String := none
  linkedin_url : Option String := none
  skills_score : Option ℚ := none
  skills_reasoning : Option String := none
  title_score : Option ℚ := none
  title_reasoning : Option String := none
  experience_score : Option ℚ := none
  experience_reasoning : Option String := none
  education_score : Option ℚ := none
  education_reasoning : Option String := none
  keywords_score : Option ℚ := none
  keywords_reasoning : Option String := none
  overall_assessment : Option String := none
  red_flags : List String := []
  final_weighted_score : Option ℚ := none
  years_of_experience : Option ℚ := none
  location : Option String := none
  current_job_title : Option String := none
  skills : List String := []
  status : CandStatus := CandStatus.new
  processed_at : Option Unit := none
  deriving Repr, DecidableEq

/-- Modelled from the spec: the persistent `ATSScanHistory` (ScanRun) row:
status, `total_found`, the three counters, error message (spec section 3).
`scan_completed_at` is a presence marker; counters are nullable columns,
unset until written. -/
structure ATSScanHistory where
  user_id : Nat := 0
  status : RunStatus
  total_cvs_found : Option Nat := none
  cvs_processed : Option Nat := none
  cvs_scored : Option Nat := none
  cvs_filtered_out : Option Nat := none
  error_message : Option String := none
  scan_completed_at : Option Unit := none
  deriving Repr, DecidableEq

/-- Modelled from the spec: the ATS-relevant part of the `UserSettings` row —
the decrypted scoring credential and Microsoft access token as read by
`run_ajax` (routes.py lines 144-146, 161). -/
structure UserSettings where
  openai_api_key : Option String := none
  ms_access_token : Option String := none
  deriving Repr, DecidableEq

/-- Modelled from the spec: the per-owner `ATSAgentConfig` row, with the
fields read by `run_ajax` and written by the `config` endpoint
(routes.py lines 80-115, 139, 164-252). -/
structure ATSAgentConfig where
  user_id : Nat := 0
  job_title : Option String := none
  job_description : Option String := none
  required_skills : List String := []
  allowed_locations : List String := []
  min_experience : Nat := 0
  max_experience : Nat := 99
  min_education_level : Option String := none
  must_have_skills : List String := []
  weight_skills : ℚ := 0.4
  weight_title : ℚ := 0.2
  weight_experience : ℚ := 0.2
  weight_education : ℚ := 0.1
  weight_keywords : ℚ := 0.1
  onedrive_enabled : Bool := false
  onedrive_folder_path : String := "CVs"
  email_folder_enabled : Bool := false
  email_folder_name : String := "Recruitment"
  email_inbox_enabled : Bool := false
  sharepoint_enabled : Bool := false
  sharepoint_site_url : Option String := none
  sharepoint_library : Option String := none
  top_n_candidates : Nat := 10
  min_threshold_score : Nat := 60
  is_enabled : Bool := false
  deriving Repr, DecidableEq

/-- Filter constraints built by `run_ajax` from the owner config
(routes.py lines 248-253); the always-present integer bounds are passed as
imposed constraints. -/
def filterConfigOf (cfg : ATSAgentConfig) : FilterConfig :=
  { allowed_locations := cfg.allowed_locations,
    min_experience := some cfg.min_experience,
    max_experience := some cfg.max_experience,
    must_have_skills := cfg.must_have_skills }

/-- Scoring weights built by `run_ajax` from the owner config
(routes.py lines 290-296). -/
def weightsOf (cfg : ATSAgentConfig) : Weights :=
  { weight_skills := cfg.weight_skills, weight_title := cfg.weight_title,
    weight_experience := cfg.weight_experience,
    weight_education := cfg.weight_education,
    weight_keywords := cfg.weight_keywords }

/-! ## Source descriptors and collaborator behaviour -/

/-- One normalized document descriptor as produced by the Source Connector
Adapter, together with the behaviour of the per-descriptor collaborators for
this document: `fetch` is the outcome of the materialization step
(`download_file` / `save_base64_file`, which may raise), and `cv_text` is the
text the Extraction Adapter returns for the materialized file (the empty
string standing for the falsy no-text outcomes).  `score` is the validated
result the Scoring Adapter produces for this text — modelled from the spec
(section 4.4): the adapter returns `none` on any malformed response or
service failure and never raises. -/
structure CVFile where
  source_id : String
  filename : String := ""
  source : String := ""
  fetch : Except String Unit := Except.ok ()
  cv_text : String := ""
  score : Option ScoreResult := none

/-- Basic identity fields extracted from resume text
(`parse_cv_basic_info` of `parser.py`, not among the sources at hand). -/
structure BasicInfo where
  name : Option String := none
  email : Option String := none
  phone : Option String := none
  linkedin_url : Option String := none
  deriving Repr, DecidableEq

/-- Raw listing outcome of the four document sources for one run: each is
either a descriptor list or a raised failure. -/
structure SourceEnv where
  onedrive : Except String (List CVFile) := Except.ok []
  inbox : Except String (List CVFile) := Except.ok []
  folder : Except String (List CVFile) := Except.ok []
  sharepoint : Except String (List CVFile) := Except.ok []

/-- The four source kinds scanned by `run_ajax`. -/
inductive SourceKind
  | onedrive
  | inbox
  | folder
  | sharepoint
  deriving Repr, DecidableEq

/-- Replaces one source's raw listing outcome in an environment. -/
def setSource (env : SourceEnv) : SourceKind → Except String (List CVFile) → SourceEnv
  | SourceKind.onedrive, r => { env with onedrive := r }
  | SourceKind.inbox, r => { env with inbox := r }
  | SourceKind.folder, r => { env with folder := r }
  | SourceKind.sharepoint, r => { env with sharepoint := r }

/-- Modelled from the spec: the isolation wrapper of the Source Connector
Adapter (`scanner.py`, not among the sources at hand).  Spec section 4.2:
each source call is isolated — a failing source yields an empty result plus
a logged warning and never aborts the others. -/
def listDocuments : Except String (List CVFile) → List CVFile
  | Except.ok l => l
  | Except.error _ => []

/-- Concatenation of the enabled sources' contributions, in the order of
routes.py lines 163-196: OneDrive, email inbox, email folder, SharePoint.
Each source contributes only when its enable flag is set and the Microsoft
token is truthy (SharePoint additionally needs a truthy site URL). -/
def gatherSources (cfg : ATSAgentConfig) (s : UserSettings) (env : SourceEnv) :
    List CVFile :=
  (if cfg.onedrive_enabled && truthy s.ms_access_token then
    listDocuments env.onedrive else []) ++
  (if cfg.email_inbox_enabled && truthy s.ms_access_token then
    listDocuments env.inbox else []) ++
  (if cfg.email_folder_enabled && truthy s.ms_access_token then
    listDocuments env.folder else []) ++
  (if cfg.sharepoint_enabled && truthy cfg.sharepoint_site_url &&
      truthy s.ms_access_token then
    listDocuments env.sharepoint else [])

/-! ## The descriptor loop (routes.py lines 202-310) -/

/-- Mutable state of one run's descriptor loop: the candidate rows visible to
the dedup query (committed rows plus rows pending in the autoflushed
session), and the three local counters `processed`, `scored`, `filtered`. -/
structure LoopState where
  db : List CVCandidate
  processed : Nat
  scored : Nat
  filtered : Nat
  deriving Repr, DecidableEq

/-- Static context of one run: the hard-filter function, the basic-info
parser, the owner id and the owner's config. -/
structure RunCtx where
  filterF : String → FilterConfig → Bool × List String
  parseF : String → BasicInfo
  uid : Nat
  cfg : ATSAgentConfig

/-- Dedup query of routes.py lines 209-212: does a candidate row for
`(owner, source_id)` already exist? -/
def existsCandidate (db : List CVCandidate) (uid : Nat) (sid : String) : Bool :=
  db.any (fun c => c.user_id == uid && c.source_file_id == sid)

/-- One iteration of the descriptor loop (routes.py lines 207-310): skip on
dedup hit; materialize (may raise, aborting the loop); drop on empty
extracted text; otherwise build the candidate row, hard-filter it, score it
when passed, and persist it while bumping the counters. -/
def process_cv_file (ctx : RunCtx) (st : LoopState) (f : CVFile) :
    Except String LoopState :=
  if existsCandidate st.db ctx.uid f.source_id then Except.ok st
  else
    match f.fetch with
    | Except.error e => Except.error e
    | Except.ok _ =>
      if f.cv_text = "" then Except.ok st
      else
        let info := ctx.parseF f.cv_text
        let base : CVCandidate :=
          { user_id := ctx.uid, cv_text := f.cv_text,
            cv_file_path := f.filename, cv_source := f.source,
            source_file_id := f.source_id, source_file_name := f.filename,
            full_name := info.name, email := info.email, phone := info.phone,
            linkedin_url := info.linkedin_url }
        if (ctx.filterF f.cv_text (filterConfigOf ctx.cfg)).1 = false then
          Except.ok { db := st.db ++ [{ base with status := CandStatus.filtered_out }],
                      processed := st.processed + 1, scored := st.scored,
                      filtered := st.filtered + 1 }
        else
          match f.score with
          | none =>
            Except.ok { db := st.db ++ [base], processed := st.processed + 1,
                        scored := st.scored, filtered := st.filtered }
          | some sr =>
            let scoredCand : CVCandidate :=
              { base with
                skills_score := some sr.skills_score,
                skills_reasoning := some sr.skills_reasoning,
                title_score := some sr.title_score,
                title_reasoning := some sr.title_reasoning,
                experience_score := some sr.experience_score,
                experience_reasoning := some sr.experience_reasoning,
                education_score := some sr.education_score,
                education_reasoning := some sr.education_reasoning,
                keywords_score := some sr.keywords_score,
                keywords_reasoning := some sr.keywords_reasoning,
                overall_assessment := some sr.overall_assessment,
                red_flags := sr.red_flags,
                final_weighted_score :=
                  some (calculate_weighted_score sr (weightsOf ctx.cfg)),
                years_of_experience := sr.years_of_experience,
                location := sr.location,
                current_job_title := sr.current_title,
                skills := sr.extracted_skills,
                status := CandStatus.scored, processed_at := some () }
            Except.ok { db := st.db ++ [scoredCand],
                        processed := st.processed + 1,
                        scored := st.scored + 1, filtered := st.filtered }

/-- The descriptor loop: processes the descriptors in order; an error raised
at one descriptor stops the loop there, returning the state reached so far
together with the captured message. -/
def runLoop (ctx : RunCtx) : LoopState → List CVFile → LoopState × Option String
  | st, [] => (st, none)
  | st, f :: fs =>
    match process_cv_file ctx st f with
    | Except.ok st' => runLoop ctx st' fs
    | Except.error e => (st, some e)

/-! ## Run bookkeeping (routes.py lines 148-151, 200, 312-333) -/

/-- Sequence of states the ScanRun row passes through after its creation,
one snapshot per field mutation, in source order: created `running`
(line 149), `total_cvs_found` recorded (line 200); then on the completion
path the three counters, the `completed` status and the completion timestamp
(lines 313-317), or on the failure path the `failed` status and the captured
error message (lines 330-331). -/
def scanTrace (uid found : Nat) (st : LoopState) (err : Option String) :
    List ATSScanHistory :=
  let s0 : ATSScanHistory := { user_id := uid, status := RunStatus.running }
  let s1 := { s0 with total_cvs_found := some found }
  match err with
  | none =>
    let s2 := { s1 with cvs_processed := some st.processed }
    let s3 := { s2 with cvs_scored := some st.scored }
    let s4 := { s3 with cvs_filtered_out := some st.filtered }
    let s5 := { s4 with status := RunStatus.completed }
    let s6 := { s5 with scan_completed_at := some () }
    [s0, s1, s2, s3, s4, s5, s6]
  | some e =>
    let s2 := { s1 with status := RunStatus.failed }
    let s3 := { s2 with error_message := some e }
    [s0, s1, s2, s3]

/-- Observable outcome of one `run_ajax` invocation: the success flag and
error message of the JSON response, the ScanRun row's mutation trace (empty
when no ScanRun was created), and the candidate rows persisted at the end. -/
structure AjaxResult where
  success : Bool
  error : Option String
  trace : List ATSScanHistory
  db : List CVCandidate

/-- Embedding of the `run_ajax` endpoint (routes.py lines 132-333): the two
pre-run configuration checks (lines 138-146), ScanRun creation, source
gathering, the descriptor loop, and the completion/failure bookkeeping.
`fF` and `pF` are the hard-filter and basic-info collaborators; `db0` is the
candidate table before the run. -/
def run_ajax (fF : String → FilterConfig → Bool × List String)
    (pF : String → BasicInfo) (uid : Nat) (config? : Option ATSAgentConfig)
    (settings? : Option UserSettings) (env : SourceEnv)
    (db0 : List CVCandidate) : AjaxResult :=
  match config? with
  | none =>
    { success := false, error := some "ATS agent not configured or disabled",
      trace := [], db := db0 }
  | some cfg =>
    if cfg.is_enabled = false then
      { success := false, error := some "ATS agent not configured or disabled",
        trace := [], db := db0 }
    else
      match settings? with
      | none =>
        { success := false, error := some "OpenAI API key not configured",
          trace := [], db := db0 }
      | some s =>
        if truthy s.openai_api_key = false then
          { success := false, error := some "OpenAI API key not configured",
            trace := [], db := db0 }
        else
          let files := gatherSources cfg s env
          let p := runLoop (RunCtx.mk fF pF uid cfg)
            (LoopState.mk db0 0 0 0) files
          { success := p.2.isNone, error := p.2,
            trace := scanTrace uid files.length p.1 p.2, db := p.1.db }

/-! ## Dedup invariant machinery -/

/-- Candidate table invariant: at most one row per `(owner, source_id)`
pair. -/
def KeyUnique (db : List CVCandidate) : Prop :=
  db.Pairwise (fun a b => ¬(a.user_id = b.user_id ∧ a.source_file_id = b.source_file_id))

instance (db : List CVCandidate) : Decidable (KeyUnique db) := by
  unfold KeyUnique
  exact List.instDecidablePairwise db

/-! ## Concrete test fixtures -/

/-- Basic-info parser used in concrete scenarios: extracts nothing. -/
def noInfo : String → BasicInfo := fun _ => {}

/-- Settings with both credentials present, for concrete scenarios. -/
def demoSettings : UserSettings :=
  { openai_api_key := some "sk-demo", ms_access_token := some "tok-demo" }

/-- Enabled configuration scanning OneDrive, the inbox and the email folder,
with no disqualifying constraints, for concrete scenarios. -/
def demoCfg : ATSAgentConfig :=
  { is_enabled := true, onedrive_enabled := true, email_inbox_enabled := true,
    email_folder_enabled := true }

/-- First descriptor of scenario B: `source_id` "abc123". -/
def fileAbc1 : CVFile :=
  { source_id := "abc123", filename := "cv1.pdf", source := "onedrive",
    cv_text := "python dev, 3 years" }

/-- Second descriptor of scenario B: the same `source_id` "abc123". -/
def fileAbc2 : CVFile :=
  { source_id := "abc123", filename := "cv1-copy.pdf", source := "onedrive",
    cv_text := "python dev, 3 years" }

/-- Descriptor whose materialization step raises. -/
def fileBoom : CVFile :=
  { source_id := "boom1", filename := "bad.pdf", source := "inbox",
    fetch := Except.error "download failed", cv_text := "irrelevant" }


/-- Pre-run check one (routes.py lines 138-140): an owner config exists and
is enabled. -/
def configOk : Option ATSAgentConfig → Bool
  | none => false
  | some c => c.is_enabled

/-- Pre-run check two (routes.py lines 143-146): the owner settings exist and
hold a truthy scoring credential. -/
def credentialOk : Option UserSettings → Bool
  | none => false
  | some s => truthy s.openai_api_key

/-- Order on nullable counters: an unwritten counter precedes everything; a
written counter never decreases and is never unset. -/
def counterLe : Option Nat → Option Nat → Prop
  | none, _ => True
  | some _, none => False
  | some a, some b => a ≤ b

/-- Adjacent ScanRun snapshots have monotonically non-decreasing counters. -/
def countersMono (a b : ATSScanHistory) : Prop :=
  counterLe a.total_cvs_found b.total_cvs_found ∧
  counterLe a.cvs_processed b.cvs_processed ∧
  counterLe a.cvs_scored b.cvs_scored ∧
  counterLe a.cvs_filtered_out b.cvs_filtered_out

/-- Adjacent ScanRun snapshots change status or counters only out of the
`running` state: once a terminal status is reached, the status and every
counter are frozen. -/
def terminalFrozen (a b : ATSScanHistory) : Prop :=
  a.status = RunStatus.running ∨
    (b.status = a.status ∧ b.total_cvs_found = a.total_cvs_found ∧
     b.cvs_processed = a.cvs_processed ∧ b.cvs_scored = a.cvs_scored ∧
     b.cvs_filtered_out = a.cvs_filtered_out)

/-- Constraint set of spec scenario A: must have "python", experience within
[2, 10]. -/
def scenarioACfg : FilterConfig :=
  { min_experience := some 2, max_experience := some 10,
    must_have_skills := ["python"] }

/-- All-zero weight assignment (zero-weight guard of spec section 8). -/
def zeroWeights : Weights :=
  { weight_skills := 0, weight_title := 0, weight_experience := 0,
    weight_education := 0, weight_keywords := 0 }

/-- Descriptor whose extraction yields no text. -/
def fileEmpty : CVFile :=
  { source_id := "empty1", filename := "scan.pdf", source := "folder",
    cv_text := "" }

/-! ## Supporting lemmas -/

lemma existsCandidate_false {db : List CVCandidate} {uid : Nat} {sid : String}
    (h : existsCandidate db uid sid = false) :
    ∀ c ∈ db, ¬(c.user_id = uid ∧ c.source_file_id = sid) := by
  intro c hc hcon
  have ht : existsCandidate db uid sid = true := by
    simp only [existsCandidate, List.any_eq_true]
    exact ⟨c, hc, by simp [hcon.1, hcon.2]⟩
  rw [ht] at h
  simp at h

lemma keyUnique_append {db : List CVCandidate} {c : CVCandidate}
    (hu : KeyUnique db)
    (hnone : existsCandidate db c.user_id c.source_file_id = false) :
    KeyUnique (db ++ [c]) := by
  rw [KeyUnique, List.pairwise_append]
  refine ⟨hu, List.pairwise_singleton _ _, ?_⟩
  intro a ha b hb
  have hb1 : b = c := by simpa using hb
  subst hb1
  exact existsCandidate_false hnone a ha

lemma process_cv_file_skip {ctx : RunCtx} {st : LoopState} {f : CVFile}
    (h : existsCandidate st.db ctx.uid f.source_id = true) :
    process_cv_file ctx st f = Except.ok st := by
  rw [process_cv_file, if_pos h]

lemma process_cv_file_db_shape (ctx : RunCtx) (st : LoopState) (f : CVFile)
    (st' : LoopState) (h : process_cv_file ctx st f = Except.ok st') :
    st'.db = st.db ∨
      (existsCandidate st.db ctx.uid f.source_id = false ∧
        ∃ c, c.user_id = ctx.uid ∧ c.source_file_id = f.source_id ∧
          st'.db = st.db ++ [c]) := by
  rw [process_cv_file] at h
  split at h
  · cases h
    exact Or.inl rfl
  · rename_i hex
    have hexf : existsCandidate st.db ctx.uid f.source_id = false :=
      Bool.not_eq_true _ ▸ Bool.eq_false_iff.mpr hex
    split at h
    · exact absurd h (by simp)
    · split at h
      · cases h
        exact Or.inl rfl
      · split at h
        · cases h
          exact Or.inr ⟨hexf, _, rfl, rfl, rfl⟩
        · split at h
          · cases h
            exact Or.inr ⟨hexf, _, rfl, rfl, rfl⟩
          · cases h
            exact Or.inr ⟨hexf, _, rfl, rfl, rfl⟩

lemma runLoop_keyUnique (ctx : RunCtx) :
    ∀ (files : List CVFile) (st : LoopState), KeyUnique st.db →
      KeyUnique (runLoop ctx st files).1.db := by
  intro files
  induction files with
  | nil => exact fun st h => h
  | cons f fs ih =>
    intro st h
    rw [runLoop]
    cases hp : process_cv_file ctx st f with
    | ok st' =>
      apply ih
      rcases process_cv_file_db_shape ctx st f st' hp with h1 | ⟨hfalse, c, hc1, hc2, hdb⟩
      · rw [KeyUnique, h1]
        exact h
      · rw [KeyUnique, hdb]
        exact keyUnique_append h (by rw [hc1, hc2]; exact hfalse)
    | error e => exact h

lemma run_ajax_db_cases (fF : String → FilterConfig → Bool × List String)
    (pF : String → BasicInfo) (uid : Nat) (config? : Option ATSAgentConfig)
    (settings? : Option UserSettings) (env : SourceEnv)
    (db0 : List CVCandidate) :
    (run_ajax fF pF uid config? settings? env db0).db = db0 ∨
      ∃ cfg s, config? = some cfg ∧ settings? = some s ∧
        (run_ajax fF pF uid config? settings? env db0).db =
          (runLoop (RunCtx.mk fF pF uid cfg) (LoopState.mk db0 0 0 0)
            (gatherSources cfg s env)).1.db := by
  cases config? with
  | none => exact Or.inl rfl
  | some cfg =>
    cases settings? with
    | none =>
      cases hc : cfg.is_enabled with
      | false => left; simp [run_ajax, hc]
      | true => left; simp [run_ajax, hc]
    | some s =>
      cases hc : cfg.is_enabled with
      | false => left; simp [run_ajax, hc]
      | true =>
        cases hk : truthy s.openai_api_key with
        | false => left; simp [run_ajax, hc, hk]
        | true => exact Or.inr ⟨cfg, s, rfl, rfl, by simp [run_ajax, hc, hk]⟩

/-! ## Concrete evaluation checks -/

example : calculate_weighted_score aggExampleScore aggExampleWeights = 70 := by
  norm_num [calculate_weighted_score, weightSum, weightedAxisSum,
    aggExampleScore, aggExampleWeights]

example :
    apply_hard_filters "5 years python developer"
      { min_experience := some 2, max_experience := some 10,
        must_have_skills := ["python"] } = (true, []) := by decide

example :
    (apply_hard_filters "java only, 1 year"
      { min_experience := some 2, max_experience := some 10,
        must_have_skills := ["python"] }).1 = false := by decide

example :
    ((run_ajax apply_hard_filters noInfo 1 (some demoCfg) (some demoSettings)
        { onedrive := Except.ok [fileAbc1, fileAbc2] } []).db.filter
      (fun c => c.source_file_id == "abc123")).length = 1 := by decide

example :
    (run_ajax apply_hard_filters noInfo 1 (some demoCfg) (some demoSettings)
        { onedrive := Except.ok [fileAbc1],
          inbox := Except.error "expired credential",
          folder := Except.ok [fileAbc2] }
      []).trace.getLast?.map (fun sc => (sc.status, sc.total_cvs_found)) =
      some (RunStatus.completed, some 2) := by decide

example :
    (run_ajax apply_hard_filters noInfo 1 (some demoCfg) (some demoSettings)
        { onedrive := Except.ok [fileAbc1, fileBoom] } []).trace.getLast?.map
      (fun sc => (sc.status, sc.cvs_processed, sc.error_message)) =
      some (RunStatus.failed, none, some "download failed") := by decide

/-! ## Hard filter lemmas -/

lemma locationReasons_isEmpty (t : String) (c : FilterConfig) :
    (locationReasons t c).isEmpty = locationPasses t c := by
  unfold locationReasons locationPasses
  cases h1 : c.allowed_locations.isEmpty <;>
    cases h2 : c.allowed_locations.any (fun loc => containsCI t loc) <;>
      simp [h1, h2]

lemma experienceReasons_isEmpty (t : String) (c : FilterConfig) :
    (experienceReasons t c).isEmpty = experiencePasses t c := by
  unfold experienceReasons experiencePasses
  cases hy : extractYears t with
  | none => simp
  | some y =>
    cases hmin : c.min_experience with
    | none =>
      cases hmax : c.max_experience with
      | none => simp
      | some M =>
        by_cases h2 : M < y <;> simp [h2, Nat.not_lt.mp, Nat.le_of_not_lt]
    | some m =>
      cases hmax : c.max_experience with
      | none =>
        by_cases h1 : y < m <;> simp [h1, Nat.le_of_not_lt]
      | some M =>
        by_cases h1 : y < m <;> by_cases h2 : M < y <;>
          simp [h1, h2, Nat.le_of_not_lt, Nat.not_le.mpr]
  
lemma skillReasons_isEmpty_aux (t : String) (l : List String) :
    ((l.filterMap (fun sk =>
      if containsCI t sk then none
      else some ("Missing must-have skill: " ++ sk))).isEmpty) =
      l.all (fun sk => containsCI t sk) := by
  induction l with
  | nil => rfl
  | cons sk sks ih =>
    cases h : containsCI t sk <;> simp [h, ih]

lemma skillReasons_isEmpty (t : String) (c : FilterConfig) :
    (skillReasons t c).isEmpty = skillsPass t c := by
  unfold skillReasons skillsPass
  exact skillReasons_isEmpty_aux t c.must_have_skills

lemma apply_hard_filters_pass_iff (t : String) (c : FilterConfig) :
    (apply_hard_filters t c).1 = true ↔ (apply_hard_filters t c).2 = [] := by
  simp [apply_hard_filters, List.isEmpty_iff]

lemma isEmpty_append3 (a b c : List String) :
    (a ++ b ++ c).isEmpty = (a.isEmpty && b.isEmpty && c.isEmpty) := by
  cases a <;> cases b <;> cases c <;> simp

lemma apply_hard_filters_and (t : String) (c : FilterConfig) :
    (apply_hard_filters t c).1 =
      (locationPasses t c && experiencePasses t c && skillsPass t c) := by
  simp only [apply_hard_filters]
  rw [isEmpty_append3, locationReasons_isEmpty, experienceReasons_isEmpty,
    skillReasons_isEmpty]

lemma locationReasons_of_fail {t : String} {c : FilterConfig}
    (h : locationPasses t c = false) :
    locationReasons t c = ["Location not in allowed list"] := by
  unfold locationPasses at h
  unfold locationReasons
  rcases Bool.or_eq_false_iff.mp h with ⟨h1, h2⟩
  simp [h1, h2]

lemma experienceReasons_of_fail {t : String} {c : FilterConfig}
    (h : experiencePasses t c = false) :
    "Experience below minimum" ∈ experienceReasons t c ∨
      "Experience above maximum" ∈ experienceReasons t c := by
  unfold experiencePasses at h
  unfold experienceReasons
  cases hy : extractYears t with
  | none => rw [hy] at h; simp at h
  | some y =>
    rw [hy] at h
    rcases Bool.and_eq_false_iff.mp h with h1 | h2
    · left
      cases hmin : c.min_experience with
      | none => rw [hmin] at h1; simp at h1
      | some m =>
        rw [hmin] at h1
        have : y < m := by simpa using h1
        simp [this]
    · right
      cases hmax : c.max_experience with
      | none => rw [hmax] at h2; simp at h2
      | some M =>
        rw [hmax] at h2
        have : M < y := by simpa using h2
        simp [this]

lemma skillReasons_of_fail {t sk : String} {c : FilterConfig}
    (hmem : sk ∈ c.must_have_skills) (h : containsCI t sk = false) :
    ("Missing must-have skill: " ++ sk) ∈ skillReasons t c := by
  unfold skillReasons
  rw [List.mem_filterMap]
  exact ⟨sk, hmem, by simp [h]⟩

lemma apply_hard_filters_mem (t : String) (c : FilterConfig) (r : String) :
    r ∈ (apply_hard_filters t c).2 ↔
      (r ∈ locationReasons t c ∨ r ∈ experienceReasons t c ∨
        r ∈ skillReasons t c) := by
  simp [apply_hard_filters]

/-! ## ScanRun trace lemmas -/

lemma scanTrace_head (uid found : Nat) (st : LoopState) (err : Option String) :
    (scanTrace uid found st err).head? =
      some { user_id := uid, status := RunStatus.running } := by
  cases err <;> rfl

lemma scanTrace_getLast_completed (uid found : Nat) (st : LoopState) :
    (scanTrace uid found st none).getLast? =
      some { user_id := uid, status := RunStatus.completed,
             total_cvs_found := some found,
             cvs_processed := some st.processed,
             cvs_scored := some st.scored,
             cvs_filtered_out := some st.filtered,
             scan_completed_at := some () } := rfl

lemma scanTrace_getLast_failed (uid found : Nat) (st : LoopState) (e : String) :
    (scanTrace uid found st (some e)).getLast? =
      some { user_id := uid, status := RunStatus.failed,
             total_cvs_found := some found, error_message := some e } := rfl

lemma run_ajax_main (fF : String → FilterConfig → Bool × List String)
    (pF : String → BasicInfo) (uid : Nat) (cfg : ATSAgentConfig)
    (s : UserSettings) (env : SourceEnv) (db0 : List CVCandidate)
    (hc : cfg.is_enabled = true) (hk : truthy s.openai_api_key = true) :
    run_ajax fF pF uid (some cfg) (some s) env db0 =
      { success := (runLoop (RunCtx.mk fF pF uid cfg) (LoopState.mk db0 0 0 0)
            (gatherSources cfg s env)).2.isNone,
        error := (runLoop (RunCtx.mk fF pF uid cfg) (LoopState.mk db0 0 0 0)
            (gatherSources cfg s env)).2,
        trace := scanTrace uid (gatherSources cfg s env).length
            (runLoop (RunCtx.mk fF pF uid cfg) (LoopState.mk db0 0 0 0)
              (gatherSources cfg s env)).1
            (runLoop (RunCtx.mk fF pF uid cfg) (LoopState.mk db0 0 0 0)
              (gatherSources cfg s env)).2,
        db := (runLoop (RunCtx.mk fF pF uid cfg) (LoopState.mk db0 0 0 0)
            (gatherSources cfg s env)).1.db } := by
  simp [run_ajax, hc, hk]

lemma run_ajax_early (fF : String → FilterConfig → Bool × List String)
    (pF : String → BasicInfo) (uid : Nat) (config? : Option ATSAgentConfig)
    (settings? : Option UserSettings) (env : SourceEnv)
    (db0 : List CVCandidate)
    (h : configOk config? = false ∨ credentialOk settings? = false) :
    (run_ajax fF pF uid config? settings? env db0).trace = [] ∧
      (run_ajax fF pF uid config? settings? env db0).success = false ∧
      (run_ajax fF pF uid config? settings? env db0).error.isSome = true ∧
      (run_ajax fF pF uid config? settings? env db0).db = db0 := by
  cases config? with
  | none => exact ⟨rfl, rfl, rfl, rfl⟩
  | some cfg =>
    cases settings? with
    | none =>
      cases hc : cfg.is_enabled with
      | false => simp [run_ajax, hc]
      | true => simp [run_ajax, hc]
    | some s =>
      cases hc : cfg.is_enabled with
      | false => simp [run_ajax, hc]
      | true =>
        cases hk : truthy s.openai_api_key with
        | false => simp [run_ajax, hc, hk]
        | true =>
          exfalso
          rcases h with h | h
          · simp [configOk, hc] at h
          · simp [credentialOk, hk] at h

/-! ## Claim theorems -/

/-- C7: for every score result and weight assignment, the weighted aggregate
equals the sum over the five axes of axis score times weight, divided by the
sum of the weights; when the weight sum is 0 the result is 0 with no division
error; and the spec test vector (80/60/100/40/20 against
0.4/0.2/0.2/0.1/0.1) aggregates to 70. -/
theorem weighted_aggregate_correct :
    (∀ (s : ScoreResult) (w : Weights),
      w.weight_skills + w.weight_title + w.weight_experience +
          w.weight_education + w.weight_keywords ≠ 0 →
      calculate_weighted_score s w =
        (s.skills_score * w.weight_skills + s.title_score * w.weight_title +
          s.experience_score * w.weight_experience +
          s.education_score * w.weight_education +
          s.keywords_score * w.weight_keywords) /
        (w.weight_skills + w.weight_title + w.weight_experience +
          w.weight_education + w.weight_keywords)) ∧
    (∀ (s : ScoreResult) (w : Weights),
      w.weight_skills + w.weight_title + w.weight_experience +
          w.weight_education + w.weight_keywords = 0 →
      calculate_weighted_score s w = 0) ∧
    calculate_weighted_score aggExampleScore aggExampleWeights = 70 := by
  refine ⟨?_, ?_, ?_⟩
  · intro s w h
    rw [calculate_weighted_score, if_neg (by rw [weightSum]; exact h)]
    rfl
  · intro s w h
    rw [calculate_weighted_score, if_pos (by rw [weightSum]; exact h)]
  · norm_num [calculate_weighted_score, weightSum, weightedAxisSum,
      aggExampleScore, aggExampleWeights]

/-- Witness for C7: the theorem applied to the spec test vector (nonzero
weight sum) and to the all-zero weight assignment. -/
theorem weighted_aggregate_correct_witness :
    calculate_weighted_score aggExampleScore aggExampleWeights =
      (aggExampleScore.skills_score * aggExampleWeights.weight_skills +
        aggExampleScore.title_score * aggExampleWeights.weight_title +
        aggExampleScore.experience_score * aggExampleWeights.weight_experience +
        aggExampleScore.education_score * aggExampleWeights.weight_education +
        aggExampleScore.keywords_score * aggExampleWeights.weight_keywords) /
      (aggExampleWeights.weight_skills + aggExampleWeights.weight_title +
        aggExampleWeights.weight_experience + aggExampleWeights.weight_education +
        aggExampleWeights.weight_keywords) ∧
    calculate_weighted_score aggExampleScore zeroWeights = 0 :=
  ⟨weighted_aggregate_correct.1 aggExampleScore aggExampleWeights
      (by norm_num [aggExampleWeights]),
    weighted_aggregate_correct.2.1 aggExampleScore zeroWeights
      (by norm_num [zeroWeights])⟩

/-- C8: the hard filter is a pure function that ANDs its location,
experience-bounds and must-have-skill constraints, passes exactly when its
reason list is empty, always passes the empty constraint set, reports every
failed constraint in the reason list; and on scenario A the text
"5 years python developer" yields `(true, [])` while "java only, 1 year"
fails with both a skill reason and an experience reason present. -/
theorem hard_filter_contract :
    (∀ (t : String) (c : FilterConfig),
      (apply_hard_filters t c).1 = true ↔ (apply_hard_filters t c).2 = []) ∧
    (∀ (t : String) (c : FilterConfig),
      (apply_hard_filters t c).1 =
        (locationPasses t c && experiencePasses t c && skillsPass t c)) ∧
    (∀ t : String, apply_hard_filters t {} = (true, [])) ∧
    (∀ (t : String) (c : FilterConfig), locationPasses t c = false →
      "Location not in allowed list" ∈ (apply_hard_filters t c).2) ∧
    (∀ (t : String) (c : FilterConfig), experiencePasses t c = false →
      "Experience below minimum" ∈ (apply_hard_filters t c).2 ∨
        "Experience above maximum" ∈ (apply_hard_filters t c).2) ∧
    (∀ (t sk : String) (c : FilterConfig), sk ∈ c.must_have_skills →
      containsCI t sk = false →
      ("Missing must-have skill: " ++ sk) ∈ (apply_hard_filters t c).2) ∧
    apply_hard_filters "5 years python developer" scenarioACfg = (true, []) ∧
    (apply_hard_filters "java only, 1 year" scenarioACfg).1 = false ∧
    "Experience below minimum" ∈
      (apply_hard_filters "java only, 1 year" scenarioACfg).2 ∧
    "Missing must-have skill: python" ∈
      (apply_hard_filters "java only, 1 year" scenarioACfg).2 := by
  refine ⟨apply_hard_filters_pass_iff, apply_hard_filters_and, ?_, ?_, ?_, ?_,
    by decide, by decide, by decide, by decide⟩
  · intro t
    have hexp : experienceReasons t {} = [] := by
      unfold experienceReasons
      cases extractYears t <;> rfl
    simp [apply_hard_filters, locationReasons, skillReasons, hexp]
  · intro t c h
    rw [apply_hard_filters_mem]
    exact Or.inl (by rw [locationReasons_of_fail h]; exact List.mem_singleton.mpr rfl)
  · intro t c h
    rcases experienceReasons_of_fail h with h1 | h1
    · exact Or.inl ((apply_hard_filters_mem t c _).mpr (Or.inr (Or.inl h1)))
    · exact Or.inr ((apply_hard_filters_mem t c _).mpr (Or.inr (Or.inl h1)))
  · intro t sk c hmem h
    exact (apply_hard_filters_mem t c _).mpr (Or.inr (Or.inr (skillReasons_of_fail hmem h)))

/-- Witness for C8: the implications of the theorem applied at concrete
texts and constraint sets that fail each individual constraint. -/
theorem hard_filter_contract_witness :
    "Location not in allowed list" ∈
      (apply_hard_filters "remote candidate"
        { allowed_locations := ["berlin"] }).2 ∧
    ("Experience below minimum" ∈
        (apply_hard_filters "java only, 1 year" scenarioACfg).2 ∨
      "Experience above maximum" ∈
        (apply_hard_filters "java only, 1 year" scenarioACfg).2) ∧
    ("Missing must-have skill: " ++ "python") ∈
      (apply_hard_filters "java only, 1 year" scenarioACfg).2 :=
  ⟨hard_filter_contract.2.2.2.1 "remote candidate"
      { allowed_locations := ["berlin"] } (by decide),
    hard_filter_contract.2.2.2.2.1 "java only, 1 year" scenarioACfg (by decide),
    hard_filter_contract.2.2.2.2.2.1 "java only, 1 year" "python" scenarioACfg
      (by decide) (by decide)⟩

/-- C1: a run started on a candidate table with at most one row per
`(owner, source_id)` pair leaves the table with that invariant intact (so it
holds across every sequence of runs); a descriptor whose pair already has a
row is skipped leaving the loop state — rows and all three counters —
untouched; and in the concrete scenario B two descriptors sharing
`source_id` "abc123" in one run persist exactly one candidate row. -/
theorem candidate_dedup_invariant :
    (∀ (fF : String → FilterConfig → Bool × List String)
      (pF : String → BasicInfo) (uid : Nat) (config? : Option ATSAgentConfig)
      (settings? : Option UserSettings) (env : SourceEnv)
      (db0 : List CVCandidate), KeyUnique db0 →
      KeyUnique (run_ajax fF pF uid config? settings? env db0).db) ∧
    (∀ (ctx : RunCtx) (st : LoopState) (f : CVFile),
      existsCandidate st.db ctx.uid f.source_id = true →
      process_cv_file ctx st f = Except.ok st) ∧
    ((run_ajax apply_hard_filters noInfo 1 (some demoCfg) (some demoSettings)
        { onedrive := Except.ok [fileAbc1, fileAbc2] } []).db.filter
      (fun c => c.source_file_id == "abc123")).length = 1 := by
  refine ⟨?_, fun ctx st f h => process_cv_file_skip h, by decide⟩
  intro fF pF uid config? settings? env db0 h
  rcases run_ajax_db_cases fF pF uid config? settings? env db0 with
    h1 | ⟨cfg, s, _, _, h1⟩
  · rw [h1]
    exact h
  · rw [h1]
    exact runLoop_keyUnique _ _ _ h

/-- Witness for C1: the dedup invariant instantiated on the concrete
scenario B run from the empty table, and the skip branch instantiated on a
state already holding the row for the incoming descriptor. -/
theorem candidate_dedup_invariant_witness :
    KeyUnique (run_ajax apply_hard_filters noInfo 1 (some demoCfg)
      (some demoSettings) { onedrive := Except.ok [fileAbc1, fileAbc2] } []).db ∧
    process_cv_file (RunCtx.mk apply_hard_filters noInfo 1 demoCfg)
        (LoopState.mk [{ user_id := 1, cv_text := "x", source_file_id := "abc123" }] 2 1 1)
        fileAbc1 =
      Except.ok (LoopState.mk [{ user_id := 1, cv_text := "x", source_file_id := "abc123" }] 2 1 1) :=
  ⟨candidate_dedup_invariant.1 apply_hard_filters noInfo 1 (some demoCfg)
      (some demoSettings) { onedrive := Except.ok [fileAbc1, fileAbc2] } []
      (by decide),
    candidate_dedup_invariant.2.1
      (RunCtx.mk apply_hard_filters noInfo 1 demoCfg)
      (LoopState.mk [{ user_id := 1, cv_text := "x", source_file_id := "abc123" }] 2 1 1)
      fileAbc1 (by decide)⟩

/-- C2: when the owner has no enabled config or no truthy scoring
credential, `run_ajax` answers failure without creating any ScanRun
snapshot; when both pre-run checks pass, the first ScanRun snapshot created
is the freshly inserted row in `running` state. -/
theorem config_error_no_scanrun :
    ∀ (fF : String → FilterConfig → Bool × List String)
      (pF : String → BasicInfo) (uid : Nat) (config? : Option ATSAgentConfig)
      (settings? : Option UserSettings) (env : SourceEnv)
      (db0 : List CVCandidate),
      ((configOk config? = false ∨ credentialOk settings? = false) →
        (run_ajax fF pF uid config? settings? env db0).trace = [] ∧
        (run_ajax fF pF uid config? settings? env db0).success = false ∧
        (run_ajax fF pF uid config? settings? env db0).error.isSome = true) ∧
      (configOk config? = true → credentialOk settings? = true →
        (run_ajax fF pF uid config? settings? env db0).trace.head? =
          some { user_id := uid, status := RunStatus.running }) := by
  intro fF pF uid config? settings? env db0
  constructor
  · intro h
    exact ⟨(run_ajax_early fF pF uid config? settings? env db0 h).1,
      (run_ajax_early fF pF uid config? settings? env db0 h).2.1,
      (run_ajax_early fF pF uid config? settings? env db0 h).2.2.1⟩
  · intro hc hk
    cases config? with
    | none => simp [configOk] at hc
    | some cfg =>
      cases settings? with
      | none => simp [credentialOk] at hk
      | some s =>
        rw [run_ajax_main fF pF uid cfg s env db0 (by simpa [configOk] using hc)
          (by simpa [credentialOk] using hk)]
        exact scanTrace_head uid _ _ _

/-- Witness for C2: a missing config blocks ScanRun creation, and the demo
config with a present credential starts a `running` ScanRun. -/
theorem config_error_no_scanrun_witness :
    ((run_ajax apply_hard_filters noInfo 1 none (some demoSettings) {} []).trace = [] ∧
      (run_ajax apply_hard_filters noInfo 1 none (some demoSettings) {} []).success = false ∧
      (run_ajax apply_hard_filters noInfo 1 none (some demoSettings) {} []).error.isSome = true) ∧
    (run_ajax apply_hard_filters noInfo 1 (some demoCfg) (some demoSettings) {} []).trace.head? =
      some { user_id := 1, status := RunStatus.running } :=
  ⟨(config_error_no_scanrun apply_hard_filters noInfo 1 none (some demoSettings)
      {} []).1 (Or.inl rfl),
    (config_error_no_scanrun apply_hard_filters noInfo 1 (some demoCfg)
      (some demoSettings) {} []).2 (by decide) (by decide)⟩

lemma gatherSources_setSource (cfg : ATSAgentConfig) (s : UserSettings)
    (env : SourceEnv) (k : SourceKind) (e : String) :
    gatherSources cfg s (setSource env k (Except.error e)) =
      gatherSources cfg s (setSource env k (Except.ok [])) := by
  cases k <;> simp [gatherSources, setSource, listDocuments]

/-- C3: a failure raised while listing one source is absorbed by the
connector into an empty contribution; the whole run outcome — response,
ScanRun trace and candidate table — is the same as if that source had
listed no documents, so the run is never aborted and the other sources
still contribute; concretely, with three enabled sources of which the inbox
raises, the run completes and `total_found` counts only the two documents
of the non-failing sources. -/
theorem source_failure_isolated :
    (∀ e : String, listDocuments (Except.error e) = []) ∧
    (∀ (k : SourceKind) (fF : String → FilterConfig → Bool × List String)
      (pF : String → BasicInfo) (uid : Nat) (config? : Option ATSAgentConfig)
      (settings? : Option UserSettings) (env : SourceEnv)
      (db0 : List CVCandidate) (e : String),
      run_ajax fF pF uid config? settings? (setSource env k (Except.error e)) db0 =
        run_ajax fF pF uid config? settings? (setSource env k (Except.ok [])) db0) ∧
    (run_ajax apply_hard_filters noInfo 1 (some demoCfg) (some demoSettings)
        { onedrive := Except.ok [fileAbc1],
          inbox := Except.error "expired credential",
          folder := Except.ok [fileEmpty] } []).trace.getLast?.map
      (fun sc => (sc.status, sc.total_cvs_found)) =
      some (RunStatus.completed, some 2) := by
  refine ⟨fun e => rfl, ?_, by decide⟩
  intro k fF pF uid config? settings? env db0 e
  cases config? with
  | none => rfl
  | some cfg =>
    cases settings? with
    | none =>
      cases hc : cfg.is_enabled with
      | false => simp [run_ajax, hc]
      | true => simp [run_ajax, hc]
    | some s =>
      cases hc : cfg.is_enabled with
      | false => simp [run_ajax, hc]
      | true =>
        cases hk : truthy s.openai_api_key with
        | false => simp [run_ajax, hc, hk]
        | true =>
          rw [run_ajax_main fF pF uid cfg s _ db0 hc hk,
            run_ajax_main fF pF uid cfg s _ db0 hc hk,
            gatherSources_setSource]

/-- C4: a new descriptor that materializes, yields text and passes the hard
filter but gets a null scoring result is persisted with status `new`, with
`processed` incremented and `scored`/`filtered` unchanged, and the loop goes
on with the remaining descriptors; moreover, once materialization succeeds
the loop body never raises — the scoring step cannot abort the run. -/
theorem null_score_keeps_candidate_new :
    (∀ (ctx : RunCtx) (st : LoopState) (f : CVFile),
      existsCandidate st.db ctx.uid f.source_id = false →
      f.fetch = Except.ok () →
      f.cv_text ≠ "" →
      (ctx.filterF f.cv_text (filterConfigOf ctx.cfg)).1 = true →
      f.score = none →
      ∃ c, c.status = CandStatus.new ∧ c.final_weighted_score = none ∧
        process_cv_file ctx st f = Except.ok
          { db := st.db ++ [c], processed := st.processed + 1,
            scored := st.scored, filtered := st.filtered } ∧
        ∀ fs, runLoop ctx st (f :: fs) =
          runLoop ctx
            (LoopState.mk (st.db ++ [c]) (st.processed + 1) st.scored st.filtered)
            fs) ∧
    (∀ (ctx : RunCtx) (st : LoopState) (f : CVFile),
      f.fetch = Except.ok () →
      ∃ st', process_cv_file ctx st f = Except.ok st') := by
  constructor
  · intro ctx st f h1 h2 h3 h4 h5
    have hp : process_cv_file ctx st f = Except.ok
        { db := st.db ++
            [{ user_id := ctx.uid, cv_text := f.cv_text,
               cv_file_path := f.filename, cv_source := f.source,
               source_file_id := f.source_id, source_file_name := f.filename,
               full_name := (ctx.parseF f.cv_text).name,
               email := (ctx.parseF f.cv_text).email,
               phone := (ctx.parseF f.cv_text).phone,
               linkedin_url := (ctx.parseF f.cv_text).linkedin_url }],
          processed := st.processed + 1, scored := st.scored,
          filtered := st.filtered } := by
      simp [process_cv_file, h1, h2, h3, h4, h5]
    exact ⟨_, rfl, rfl, hp, fun fs => by simp [runLoop, hp]⟩
  · intro ctx st f h2
    rw [process_cv_file]
    cases hex : existsCandidate st.db ctx.uid f.source_id with
    | true => exact ⟨st, by simp⟩
    | false =>
      rw [if_neg (by simp [hex])]
      rw [h2]
      by_cases h3 : f.cv_text = ""
      · exact ⟨st, by simp [h3]⟩
      · rw [if_neg h3]
        by_cases h4 : (ctx.filterF f.cv_text (filterConfigOf ctx.cfg)).1 = false
        · exact ⟨_, by rw [if_pos h4]⟩
        · rw [if_neg h4]
          cases f.score with
          | none => exact ⟨_, rfl⟩
          | some sr => exact ⟨_, rfl⟩

/-- Witness for C4: the theorem applied to `fileAbc1` (null score, passing
filter) from the empty table, and the no-abort part applied to the same
descriptor. -/
theorem null_score_keeps_candidate_new_witness :
    (∃ c, c.status = CandStatus.new ∧ c.final_weighted_score = none ∧
      process_cv_file (RunCtx.mk apply_hard_filters noInfo 1 demoCfg)
          (LoopState.mk [] 0 0 0) fileAbc1 = Except.ok
        { db := [] ++ [c], processed := 0 + 1, scored := 0, filtered := 0 } ∧
      ∀ fs, runLoop (RunCtx.mk apply_hard_filters noInfo 1 demoCfg)
          (LoopState.mk [] 0 0 0) (fileAbc1 :: fs) =
        runLoop (RunCtx.mk apply_hard_filters noInfo 1 demoCfg)
          (LoopState.mk ([] ++ [c]) (0 + 1) 0 0) fs) ∧
    (∃ st', process_cv_file (RunCtx.mk apply_hard_filters noInfo 1 demoCfg)
        (LoopState.mk [] 0 0 0) fileAbc1 = Except.ok st') :=
  ⟨null_score_keeps_candidate_new.1 (RunCtx.mk apply_hard_filters noInfo 1 demoCfg)
      (LoopState.mk [] 0 0 0) fileAbc1 (by decide) rfl (by decide) (by decide) rfl,
    null_score_keeps_candidate_new.2 (RunCtx.mk apply_hard_filters noInfo 1 demoCfg)
      (LoopState.mk [] 0 0 0) fileAbc1 rfl⟩

/-- C9: a new descriptor whose materialized content yields no extracted text
is dropped: the loop state is returned unchanged — no candidate row is
added and none of `processed`, `scored`, `filtered` moves — and the loop
continues with the next descriptor. -/
theorem empty_extraction_drops_descriptor :
    ∀ (ctx : RunCtx) (st : LoopState) (f : CVFile),
      existsCandidate st.db ctx.uid f.source_id = false →
      f.fetch = Except.ok () →
      f.cv_text = "" →
      process_cv_file ctx st f = Except.ok st ∧
      ∀ fs, runLoop ctx st (f :: fs) = runLoop ctx st fs := by
  intro ctx st f h1 h2 h3
  have hp : process_cv_file ctx st f = Except.ok st := by
    simp [process_cv_file, h1, h2, h3]
  exact ⟨hp, fun fs => by simp [runLoop, hp]⟩

/-- Witness for C9: the theorem applied to the no-text descriptor
`fileEmpty` from the empty table. -/
theorem empty_extraction_drops_descriptor_witness :
    process_cv_file (RunCtx.mk apply_hard_filters noInfo 1 demoCfg)
        (LoopState.mk [] 0 0 0) fileEmpty = Except.ok (LoopState.mk [] 0 0 0) ∧
    ∀ fs, runLoop (RunCtx.mk apply_hard_filters noInfo 1 demoCfg)
        (LoopState.mk [] 0 0 0) (fileEmpty :: fs) =
      runLoop (RunCtx.mk apply_hard_filters noInfo 1 demoCfg)
        (LoopState.mk [] 0 0 0) fs :=
  empty_extraction_drops_descriptor
    (RunCtx.mk apply_hard_filters noInfo 1 demoCfg)
    (LoopState.mk [] 0 0 0) fileEmpty (by decide) rfl rfl

/-- C5: an error raised at one descriptor stops the loop right there,
keeping the state already reached (all candidate rows persisted so far are
retained); the run then answers failure — no exception escapes, the
response carries the captured message — and the final ScanRun snapshot is
`failed` with that message, with `total_found` still recorded. -/
theorem unhandled_error_fails_run :
    (∀ (ctx : RunCtx) (st : LoopState) (f : CVFile) (fs : List CVFile)
      (e : String),
      process_cv_file ctx st f = Except.error e →
      runLoop ctx st (f :: fs) = (st, some e)) ∧
    (∀ (fF : String → FilterConfig → Bool × List String)
      (pF : String → BasicInfo) (uid : Nat) (cfg : ATSAgentConfig)
      (s : UserSettings) (env : SourceEnv) (db0 : List CVCandidate)
      (st : LoopState) (e : String),
      cfg.is_enabled = true → truthy s.openai_api_key = true →
      runLoop (RunCtx.mk fF pF uid cfg) (LoopState.mk db0 0 0 0)
          (gatherSources cfg s env) = (st, some e) →
      (run_ajax fF pF uid (some cfg) (some s) env db0).success = false ∧
      (run_ajax fF pF uid (some cfg) (some s) env db0).error = some e ∧
      (run_ajax fF pF uid (some cfg) (some s) env db0).db = st.db ∧
      (run_ajax fF pF uid (some cfg) (some s) env db0).trace.getLast? =
        some { user_id := uid, status := RunStatus.failed,
               total_cvs_found := some (gatherSources cfg s env).length,
               error_message := some e }) := by
  constructor
  · intro ctx st f fs e h
    simp [runLoop, h]
  · intro fF pF uid cfg s env db0 st e hc hk hloop
    rw [run_ajax_main fF pF uid cfg s env db0 hc hk]
    rw [hloop]
    exact ⟨rfl, rfl, rfl, scanTrace_getLast_failed uid _ st e⟩

/-- Witness for C5: a run over the single raising descriptor `fileBoom`
stops immediately and is recorded as `failed` with the captured message. -/
theorem unhandled_error_fails_run_witness :
    runLoop (RunCtx.mk apply_hard_filters noInfo 1 demoCfg)
        (LoopState.mk [] 0 0 0) (fileBoom :: []) =
      (LoopState.mk [] 0 0 0, some "download failed") ∧
    ((run_ajax apply_hard_filters noInfo 1 (some demoCfg) (some demoSettings)
        { onedrive := Except.ok [fileBoom] } []).success = false ∧
      (run_ajax apply_hard_filters noInfo 1 (some demoCfg) (some demoSettings)
        { onedrive := Except.ok [fileBoom] } []).error = some "download failed" ∧
      (run_ajax apply_hard_filters noInfo 1 (some demoCfg) (some demoSettings)
        { onedrive := Except.ok [fileBoom] } []).db = (LoopState.mk [] 0 0 0).db ∧
      (run_ajax apply_hard_filters noInfo 1 (some demoCfg) (some demoSettings)
        { onedrive := Except.ok [fileBoom] } []).trace.getLast? =
        some { user_id := 1, status := RunStatus.failed,
               total_cvs_found := some (gatherSources demoCfg demoSettings
                 { onedrive := Except.ok [fileBoom] }).length,
               error_message := some "download failed" }) :=
  ⟨unhandled_error_fails_run.1 (RunCtx.mk apply_hard_filters noInfo 1 demoCfg)
      (LoopState.mk [] 0 0 0) fileBoom [] "download failed" rfl,
    unhandled_error_fails_run.2 apply_hard_filters noInfo 1 demoCfg demoSettings
      { onedrive := Except.ok [fileBoom] } [] (LoopState.mk [] 0 0 0)
      "download failed" rfl (by decide) (by decide)⟩

/-- C6: every ScanRun trace starts at a `running` snapshot, ends at a
terminal snapshot — `completed` exactly when no error was captured,
`failed` exactly when one was — its counters never decrease between
adjacent snapshots, and from the first non-`running` snapshot on neither
the status nor any counter changes; and every `run_ajax` invocation either
creates no ScanRun or produces exactly such a trace. -/
theorem scanrun_terminal_invariant :
    (∀ (uid found : Nat) (st : LoopState) (err : Option String),
      (scanTrace uid found st err).head? =
        some { user_id := uid, status := RunStatus.running } ∧
      (∃ last, (scanTrace uid found st err).getLast? = some last ∧
        (last.status = RunStatus.completed ∨ last.status = RunStatus.failed) ∧
        (err = none → last.status = RunStatus.completed) ∧
        (∀ e, err = some e → last.status = RunStatus.failed)) ∧
      List.Chain' countersMono (scanTrace uid found st err) ∧
      List.Chain' terminalFrozen (scanTrace uid found st err)) ∧
    (∀ (fF : String → FilterConfig → Bool × List String)
      (pF : String → BasicInfo) (uid : Nat) (config? : Option ATSAgentConfig)
      (settings? : Option UserSettings) (env : SourceEnv)
      (db0 : List CVCandidate),
      (run_ajax fF pF uid config? settings? env db0).trace = [] ∨
      ∃ found st err, (run_ajax fF pF uid config? settings? env db0).trace =
        scanTrace uid found st err) := by
  constructor
  · intro uid found st err
    cases err with
    | none =>
      refine ⟨rfl, ⟨_, scanTrace_getLast_completed uid found st, Or.inl rfl,
        fun _ => rfl, fun e he => Option.noConfusion he⟩, ?_, ?_⟩
      · simp [scanTrace, List.chain'_cons, countersMono, counterLe]
      · simp [scanTrace, List.chain'_cons, terminalFrozen]
    | some e =>
      refine ⟨rfl, ⟨_, scanTrace_getLast_failed uid found st e, Or.inr rfl,
        fun h => Option.noConfusion h, fun e2 he => rfl⟩, ?_, ?_⟩
      · simp [scanTrace, List.chain'_cons, countersMono, counterLe]
      · simp [scanTrace, List.chain'_cons, terminalFrozen]
  · intro fF pF uid config? settings? env db0
    cases config? with
    | none => exact Or.inl rfl
    | some cfg =>
      cases settings? with
      | none =>
        cases hc : cfg.is_enabled with
        | false => left; simp [run_ajax, hc]
        | true => left; simp [run_ajax, hc]
      | some s =>
        cases hc : cfg.is_enabled with
        | false => left; simp [run_ajax, hc]
        | true =>
          cases hk : truthy s.openai_api_key with
          | false => left; simp [run_ajax, hc, hk]
          | true =>
            right
            refine ⟨(gatherSources cfg s env).length,
              (runLoop (RunCtx.mk fF pF uid cfg) (LoopState.mk db0 0 0 0)
                (gatherSources cfg s env)).1,
              (runLoop (RunCtx.mk fF pF uid cfg) (LoopState.mk db0 0 0 0)
                (gatherSources cfg s env)).2, ?_⟩
            rw [run_ajax_main fF pF uid cfg s env db0 hc hk]

/-- Witness for C6: the trace properties instantiated on a completed run
(no captured error) with nonzero counters. -/
theorem scanrun_terminal_invariant_witness :
    (scanTrace 1 3 (LoopState.mk [] 2 1 1) none).head? =
      some { user_id := 1, status := RunStatus.running } ∧
    List.Chain' countersMono (scanTrace 1 3 (LoopState.mk [] 2 1 1) none) ∧
    List.Chain' terminalFrozen (scanTrace 1 3 (LoopState.mk [] 2 1 1) none) :=
  ⟨(scanrun_terminal_invariant.1 1 3 (LoopState.mk [] 2 1 1) none).1,
    (scanrun_terminal_invariant.1 1 3 (LoopState.mk [] 2 1 1) none).2.2.1,
    (scanrun_terminal_invariant.1 1 3 (LoopState.mk [] 2 1 1) none).2.2.2⟩

/-- C10: on the failure path the three counters are never written — every
snapshot of a failed run's trace still has `cvs_processed`, `cvs_scored`
and `cvs_filtered_out` unset — the two snapshots after the failure update
only the status and then the error message; and concretely a run that
persists one candidate and then fails keeps that candidate in the table
while the failed ScanRun row carries no counter values. -/
theorem failed_run_counters_unwritten :
    (∀ (uid found : Nat) (st : LoopState) (e : String),
      (∀ x ∈ scanTrace uid found st (some e),
        x.cvs_processed = none ∧ x.cvs_scored = none ∧
          x.cvs_filtered_out = none) ∧
      (scanTrace uid found st (some e)).getLast? =
        some { user_id := uid, status := RunStatus.failed,
               total_cvs_found := some found, error_message := some e }) ∧
    ((run_ajax apply_hard_filters noInfo 1 (some demoCfg) (some demoSettings)
        { onedrive := Except.ok [fileAbc1, fileBoom] } []).db.map
      (fun c => c.source_file_id) = ["abc123"] ∧
    (run_ajax apply_hard_filters noInfo 1 (some demoCfg) (some demoSettings)
        { onedrive := Except.ok [fileAbc1, fileBoom] } []).trace.getLast? =
      some { user_id := 1, status := RunStatus.failed,
             total_cvs_found := some 2,
             error_message := some "download failed" }) := by
  refine ⟨?_, by decide, by decide⟩
  intro uid found st e
  refine ⟨?_, scanTrace_getLast_failed uid found st e⟩
  intro x hx
  simp only [scanTrace, List.mem_cons, List.not_mem_nil, or_false] at hx
  rcases hx with rfl | rfl | rfl | rfl <;> exact ⟨rfl, rfl, rfl⟩

/-- Witness for C10: the per-snapshot property instantiated at the initial
`running` snapshot of a concrete failed trace. -/
theorem failed_run_counters_unwritten_witness :
    ({ user_id := 1, status := RunStatus.running } : ATSScanHistory).cvs_processed = none ∧
    ({ user_id := 1, status := RunStatus.running } : ATSScanHistory).cvs_scored = none ∧
    ({ user_id := 1, status := RunStatus.running } : ATSScanHistory).cvs_filtered_out = none :=
  (failed_run_counters_unwritten.1 1 2 (LoopState.mk [] 0 0 0) "download failed").1
    { user_id := 1, status := RunStatus.running } (by decide)
